import Mathlib

/-!
Verification of the NXGenie application (src/NXGenie-App.py) against its
natural-language specification.

The Python program is shallowly embedded: each helper becomes a pure Lean
function, effects (filesystem, wall clock, network) become explicit
parameters (a store map, a timestamp string, an attempt-indexed oracle),
and the Streamlit handlers become functions from the relevant inputs to an
outcome value.
-/

deriving instance DecidableEq for Except

namespace NXGenie

/-- A chat message, as stored in the messages list of the session state:
a dict with role and content keys. -/
structure Msg where
  role : String
  content : String
deriving DecidableEq, Repr

/-- An entry of uploaded_files_meta: a dict with name and chars keys. -/
structure FileMeta where
  name : String
  chars : Nat
deriving DecidableEq, Repr

/-- The fields of the session state that the session store reads and the
Load handler writes: `persistent_context`, `messages`, `nx_version`,
`uploaded_files_meta`, `current_session_name`. -/
structure AppState where
  persistent_context : String
  messages : List Msg
  nx_version : String
  uploaded_files_meta : List FileMeta
  current_session_name : String
deriving DecidableEq, Repr

/-- The JSON payload written by `save_session` (lines 32-38): keys
`created_at`, `persistent_context`, `messages`, `nx_version`,
`uploaded_files_meta`. -/
structure SessionRecord where
  created_at : String
  persistent_context : String
  messages : List Msg
  nx_version : String
  uploaded_files_meta : List FileMeta
deriving DecidableEq, Repr

/-- Contents of a file in the data directory: either valid JSON that
parses to a session-shaped record, or content on which `json.load` raises
a parse error (the error message is carried). -/
inductive FileData where
  | json (r : SessionRecord)
  | invalid (err : String)
deriving DecidableEq, Repr

/-- The filesystem under the store directory, as a map from path to file
contents (`none` means the path does not exist). -/
def FS : Type := String → Option FileData

/-- Line 17 of the source: the data directory name. -/
def DATA_DIR : String := "data"

/-- The alphanumeric code points of the Latin-1 Supplement block
(U+0080 to U+00FF) for which Python `str.isalnum` answers true, per the
Unicode database: the accented letters U+00C0 to U+00FF minus the
multiplication and division signs, the ordinal indicators, the micro
sign, and the superscript and fraction digits. -/
def latin1Alnum (n : Nat) : Bool :=
  (0xC0 ≤ n && n ≤ 0xFF && n ≠ 0xD7 && n ≠ 0xF7) ||
  n = 0xAA || n = 0xB2 || n = 0xB3 || n = 0xB5 || n = 0xB9 || n = 0xBA ||
  n = 0xBC || n = 0xBD || n = 0xBE

/-- Python `str.isalnum`, Unicode-aware, modelled exactly on the Basic
Latin and Latin-1 Supplement blocks (the alphabets the app session names
draw from); code points above U+00FF are outside the model. -/
def pyIsAlnum (c : Char) : Bool :=
  c.isAlphanum || latin1Alnum c.toNat

/-- The character filter of `session_path` line 28:
`ch.isalnum() or ch in ("-", "_", " ", ".")`. Note that `str.isalnum`
keeps non-ASCII alphanumerics such as the accented Latin letters. -/
def keepChar (ch : Char) : Bool :=
  pyIsAlnum ch || ch = '-' || ch = '_' || ch = ' ' || ch = '.'

/-- Model of `session_path` (lines 27-29): strip disallowed characters
from the name and join with the data directory (`os.path.join` on
POSIX). -/
def session_path (name : String) : String :=
  let safe := String.mk (name.data.filter keepChar)
  DATA_DIR ++ "/" ++ safe ++ ".json"

/-- Model of `save_session` (lines 31-40): build the payload dict — with
a fresh UTC ISO-8601 stamp from `datetime.datetime.utcnow()`, here passed
in as `now` — and overwrite the file at `session_path name`. -/
def save_session (now : String) (name : String) (state : AppState) (fs : FS) : FS :=
  fun p =>
    if p = session_path name then
      some (FileData.json
        { created_at := now
          persistent_context := state.persistent_context
          messages := state.messages
          nx_version := state.nx_version
          uploaded_files_meta := state.uploaded_files_meta })
    else fs p

/-- Model of `load_session` (lines 42-47): `None` if the path does not
exist, otherwise `json.load` — which returns the record or raises a parse
error (modelled as `Except.error`). -/
def load_session (fs : FS) (name : String) : Except String (Option SessionRecord) :=
  match fs (session_path name) with
  | none => Except.ok none
  | some (FileData.json r) => Except.ok (some r)
  | some (FileData.invalid e) => Except.error e

/-- Outcome of one click of the Load button (lines 143-154): nothing
happens (`sel` empty or the placeholder), a success banner with the new
state, an error banner with the state untouched, or an uncaught parse
exception with the state untouched. -/
inductive LoadOutcome where
  | noop (st : AppState)
  | success (st : AppState)
  | failure (st : AppState)
  | raised (err : String) (st : AppState)
deriving DecidableEq, Repr

/-- The Load button handler (lines 143-154): guard
`if sel and sel != "(select)"`, call `load_session`, then either assign
the four loaded fields plus `current_session_name` (truthy result) or
show an error (falsy result). A parse exception from `load_session`
propagates before any assignment runs. -/
def load_button_handler (fs : FS) (sel : String) (st : AppState) : LoadOutcome :=
  if sel = "" ∨ sel = "(select)" then LoadOutcome.noop st
  else
    match load_session fs sel with
    | Except.error e => LoadOutcome.raised e st
    | Except.ok none => LoadOutcome.failure st
    | Except.ok (some loaded) =>
        LoadOutcome.success
          { persistent_context := loaded.persistent_context
            messages := loaded.messages
            nx_version := loaded.nx_version
            uploaded_files_meta := loaded.uploaded_files_meta
            current_session_name := sel }

/-- The ASCII whitespace characters stripped by Python `str.strip()`:
space, tab, newline, carriage return, vertical tab, form feed. -/
def pyWhitespace (c : Char) : Bool :=
  c = ' ' || c = '\t' || c = '\n' || c = '\r' || c = '\x0b' || c = '\x0c'

/-- Python `str.strip()`: drop whitespace from both ends. -/
def pyStrip (s : String) : String :=
  String.mk (((s.data.dropWhile pyWhitespace).reverse.dropWhile pyWhitespace).reverse)

/-- Python `str.lower()` on the ASCII letters the app handles. -/
def pyLower (s : String) : String :=
  String.mk (s.data.map Char.toLower)

/-- Python `str.endswith(other)`. -/
def pyEndsWith (s other : String) : Bool :=
  other.data.isSuffixOf s.data

/-- The documentation URL interpolated into the system prompt (line 167). -/
def doc_url : String :=
  "https://docs.sw.siemens.com/en-US/doc/209349590/PL20221117716122093.nxopen_python_ref"

/-- The base literal of `build_system_prompt` (lines 169-176) with the
stripped NX version spliced in where the f-strings put it. -/
def promptBase (nx_ver : String) : String :=
  "You are an expert assistant in NXOpen (Python) for Siemens NX.\n" ++
  "Always use and respect the official NXOpen Python documentation when reasoning:\n" ++
  doc_url ++ "\n\n" ++
  "Act as a reviewer and improver of journals/code: clean, documented, robust, and ready for integration.\n" ++
  "Compatibility target: **" ++ nx_ver ++ "**. Avoid using APIs or namespaces incompatible with that version.\n\n" ++
  "remove any user movements inside of the code that got recorded in the journal.\n"

/-- The response-format block appended at lines 179-185. -/
def responseFormat : String :=
  "Recommended response format:\n" ++
  "1) Brief summary of what the code does.\n" ++
  "2) List of issues/improvements.\n" ++
  "3) Proposed code (a single block with the complete code, including imports/using if applicable).\n" ++
  "4) Integration notes for NX.\n"

/-- Model of `build_system_prompt` (lines 164-186). The two session-state
reads become the explicit arguments `persistent_context` and `nx_version`;
`.strip()` is `pyStrip`; `if ctx:` is the emptiness test on the stripped
context. -/
def build_system_prompt (persistent_context nx_version : String) : String :=
  let ctx := pyStrip persistent_context
  let nx_ver := pyStrip nx_version
  let base := promptBase nx_ver
  let base :=
    if ctx ≠ "" then base ++ "PERMANENT INSTRUCTIONS TO FOLLOW:\n" ++ ctx ++ "\n\n"
    else base
  base ++ responseFormat

/-- Trace of one `call_openai` run: the returned text or the raised
RuntimeError message, the number of attempts made, and the list of
`time.sleep` delays performed, in tenths of a second. -/
structure CallTrace where
  result : Except String String
  attempts : Nat
  delays : List Nat
deriving DecidableEq, Repr

/-- Model of `time.sleep(1.2)` at line 201: 1.2 seconds, i.e. 12 tenths. -/
def sleepTenths : Nat := 12

/-- The retry loop of `call_openai` (lines 188-202), a `for` over
`range(3)`. `client` gives the outcome of the synchronous completion call
on each attempt (indexed from 0). On success the content is returned; on
an exception the error is remembered as `last_err` and `time.sleep(1.2)`
runs; when the range is exhausted, a RuntimeError naming `last_err` is
raised. -/
def call_openai_loop (client : Nat → Except String String) :
    Nat → Nat → List Nat → Option String → CallTrace
  | 0, attempt, delays, lastErr =>
      { result := Except.error ("Contact OpenAI: " ++ lastErr.getD "None")
        attempts := attempt
        delays := delays }
  | remaining + 1, attempt, delays, _ =>
      match client attempt with
      | Except.ok content =>
          { result := Except.ok content, attempts := attempt + 1, delays := delays }
      | Except.error e =>
          call_openai_loop client remaining (attempt + 1) (delays ++ [sleepTenths]) (some e)

/-- Model of `call_openai` (lines 188-202): three attempts, starting with
no recorded error and no delays. -/
def call_openai (client : Nat → Except String String) : CallTrace :=
  call_openai_loop client 3 0 [] none

/-- The bracketed character class of the extraction regex (line 211):
letters, digits, underscore, plus, minus. -/
def isLangChar (c : Char) : Bool :=
  c.isAlphanum || c = '_' || c = '+' || c = '-'

/-- The three-backtick fence delimiter. -/
def fence : List Char := ['`', '`', '`']

/-- Match the language tag then a newline at the head of `s`, returning
the remainder after the newline. The class excludes the newline, so the
greedy star is equivalent to consuming the maximal run of class
characters and then requiring a newline — which is what this
deterministic munch does. -/
def matchAfterFence : List Char → Option (List Char)
  | [] => none
  | c :: rest =>
      if isLangChar c then matchAfterFence rest
      else if c = '\n' then some rest
      else none

/-- The lazy group of the regex followed by the closing fence: take the
shortest prefix of `s` (any characters — the search runs with
`re.DOTALL`) whose continuation starts with the closing fence; return the
group and what follows the fence. -/
def lazyBody (s : List Char) : Option (List Char × List Char) :=
  if s.take 3 = fence then some ([], s.drop 3)
  else
    match s with
    | [] => none
    | c :: rest => (lazyBody rest).map (fun p => (c :: p.1, p.2))

/-- Try to match the whole pattern — opening fence, language tag,
newline, lazy body, closing fence — anchored at the start of `s`;
returns the group. -/
def tryMatchAt (s : List Char) : Option (List Char) :=
  if s.take 3 = fence then
    match matchAfterFence (s.drop 3) with
    | some rest => (lazyBody rest).map (fun p => p.1)
    | none => none
  else none

/-- Model of `re.search`: try the pattern at each position from the
left, taking the first position where it matches. -/
def searchFence : List Char → Option (List Char)
  | [] => tryMatchAt []
  | c :: rest =>
      match tryMatchAt (c :: rest) with
      | some g => some g
      | none => searchFence rest

/-- Model of `extract_code_block` (lines 209-214): search for the fenced
pattern with the group, then strip the group on a match and return `None`
otherwise. -/
def extract_code_block (text : String) : Option String :=
  (searchFence text.data).map (fun g => pyStrip (String.mk g))

/-- The fixed trailing user instruction appended at line 259. -/
def trailingInstruction : String :=
  "Process the file(s) respecting the persistent context and the indicated NX version. Return the final code in a single block."

/-- The message-list assembly of the Clean & Improve handler
(lines 252-259): a fresh system message from `build_system_prompt`, the
prior history filtered to user/assistant roles, the user message carrying
the code payload, and the fixed trailing user instruction. -/
def clean_improve_msgs (persistent_context nx_version : String)
    (history : List Msg) (code_msg : String) : List Msg :=
  let msgs := [Msg.mk "system" (build_system_prompt persistent_context nx_version)]
  let msgs := msgs ++ history.filter (fun m => m.role = "user" || m.role = "assistant")
  msgs ++ [Msg.mk "user" code_msg, Msg.mk "user" trailingInstruction]

/-- The download filename computation of the success branch
(lines 270-272): the generic name, then the conditional reassignment when
a selected file ends (case-insensitively) in the Python extension.
`selected` is `none` in unified mode. -/
def download_name (selected : Option String) : String :=
  let out := "improved_code.py"
  match selected with
  | some s => if pyEndsWith (pyLower s) ".py" then "improved_code.py" else out
  | none => out

/-- The download offer of the success branch (lines 268-280): the guard
`if extracted:` is Python truthiness, false both for `None` and for the
empty string — a download button with the block as content under
`download_name` appears only when extraction finds a block whose stripped
content is nonempty; otherwise no button (an informational notice
instead). -/
def download_offer (selected : Option String) (result : String) :
    Option (String × String) :=
  match extract_code_block result with
  | some extracted =>
      if extracted ≠ "" then some (download_name selected, extracted) else none
  | none => none

/-- The allowed character class as the spec words it (letters, digits,
hyphen, underscore, space, dot), written from the spec for comparison
with the source-derived `keepChar`. -/
def specAllowedChar (c : Char) : Bool :=
  ('A' ≤ c && c ≤ 'Z') || ('a' ≤ c && c ≤ 'z') || ('0' ≤ c && c ≤ '9') ||
  c = '-' || c = '_' || c = ' ' || c = '.'

/-- Decidable substring test used to state the concrete prompt facts. -/
def occursIn (needle : List Char) : List Char → Bool
  | [] => needle.isPrefixOf []
  | c :: t => needle.isPrefixOf (c :: t) || occursIn needle t

/-- An empty store directory. -/
def emptyFS : FS := fun _ => none

/-- A store holding one file that is not valid JSON, at the sanitized
path of the session named bad. -/
def corruptFS : FS := fun p =>
  if p = session_path "bad" then
    some (FileData.invalid "Expecting value: line 1 column 1 (char 0)")
  else none

/-- A concrete application state (the defaults of lines 50-61). -/
def sampleState : AppState := ⟨"", [], "NX 2212", [], "sesion-nx"⟩

/-- A concrete completion oracle that fails on its first two attempts and
succeeds on the third. -/
def flakyClient : Nat → Except String String := fun n =>
  if n = 0 then Except.error "boom0"
  else if n = 1 then Except.error "boom1"
  else Except.ok "done"

/-! ## Helper lemmas -/

/-- The Latin-1 extension of the alphanumeric class is silent on the
ASCII range. -/
theorem latin1Alnum_ascii {n : Nat} (h : n < 128) : latin1Alnum n = false := by
  simp only [latin1Alnum, Bool.or_eq_false_iff, Bool.and_eq_false_iff,
    decide_eq_false_iff_not]
  omega

/-- On ASCII characters the source filter coincides pointwise with the
class the spec states. -/
theorem keepChar_eq_spec_ascii {c : Char} (h : c.toNat < 128) :
    keepChar c = specAllowedChar c := by
  unfold keepChar pyIsAlnum
  rw [latin1Alnum_ascii h, Bool.or_false]
  rfl

/-- Unfolding of extraction on an explicit character list. -/
theorem extract_mk (l : List Char) :
    extract_code_block (String.mk l) =
      (searchFence l).map (fun g => pyStrip (String.mk g)) := rfl

/-- The pattern cannot match at a position that does not start with a
backtick. -/
theorem tryMatchAt_not_backtick {c : Char} (hc : c ≠ '`') (rest : List Char) :
    tryMatchAt (c :: rest) = none := by
  unfold tryMatchAt
  rw [if_neg]
  intro h
  rw [show (3 : Nat) = 2 + 1 from rfl, List.take_succ_cons] at h
  exact hc (List.head_eq_of_cons_eq h)

/-- The left-to-right search passes over a backtick-free prefix. -/
theorem searchFence_skip {pre : List Char} (hpre : ∀ c ∈ pre, c ≠ '`')
    (rest : List Char) : searchFence (pre ++ rest) = searchFence rest := by
  induction pre with
  | nil => rfl
  | cons c pre ih =>
    have hc : c ≠ '`' := hpre c (List.mem_cons_self c pre)
    rw [List.cons_append]
    show (match tryMatchAt (c :: (pre ++ rest)) with
      | some g => some g
      | none => searchFence (pre ++ rest)) = searchFence rest
    rw [tryMatchAt_not_backtick hc]
    exact ih (fun d hd => hpre d (List.mem_cons_of_mem c hd))

/-- The language-tag munch consumes a run of class characters up to a
newline. -/
theorem matchAfterFence_lang {lang : List Char}
    (hlang : ∀ c ∈ lang, isLangChar c = true) (rest : List Char) :
    matchAfterFence (lang ++ '\n' :: rest) = some rest := by
  induction lang with
  | nil => rfl
  | cons c lang ih =>
    have hc : isLangChar c = true := hlang c (List.mem_cons_self c lang)
    rw [List.cons_append]
    show (if isLangChar c then matchAfterFence (lang ++ '\n' :: rest)
      else if c = '\n' then some (lang ++ '\n' :: rest) else none) = some rest
    rw [if_pos hc]
    exact ih (fun d hd => hlang d (List.mem_cons_of_mem c hd))

/-- The lazy group stops at the closing fence that ends a backtick-free
body. -/
theorem lazyBody_boundary {body : List Char} (hbody : ∀ c ∈ body, c ≠ '`')
    (post : List Char) : lazyBody (body ++ (fence ++ post)) = some (body, post) := by
  induction body with
  | nil =>
    unfold lazyBody
    rw [List.nil_append, if_pos]
    · rw [show (3 : Nat) = fence.length from rfl, List.drop_left]
    · rw [show (3 : Nat) = fence.length from rfl, List.take_left]
  | cons c body ih =>
    have hc : c ≠ '`' := hbody c (List.mem_cons_self c body)
    have hneg : ¬((c :: (body ++ (fence ++ post))).take 3 = fence) := by
      intro h
      rw [show (3 : Nat) = 2 + 1 from rfl, List.take_succ_cons] at h
      exact hc (List.head_eq_of_cons_eq h)
    unfold lazyBody
    rw [List.cons_append, if_neg]
    · show (lazyBody (body ++ (fence ++ post))).map _ = _
      rw [ih (fun d hd => hbody d (List.mem_cons_of_mem c hd))]
      rfl
    · exact hneg

/-- The full pattern matches at an opening fence followed by a tag, a
newline, a backtick-free body and a closing fence, and captures the
body. -/
theorem tryMatchAt_at_fence {lang body post : List Char}
    (hlang : ∀ c ∈ lang, isLangChar c = true) (hbody : ∀ c ∈ body, c ≠ '`') :
    tryMatchAt ('`' :: '`' :: '`' :: (lang ++ '\n' :: (body ++ (fence ++ post)))) =
      some body := by
  show (match matchAfterFence (lang ++ '\n' :: (body ++ (fence ++ post))) with
    | some rest => (lazyBody rest).map (fun p => p.1)
    | none => none) = some body
  rw [matchAfterFence_lang hlang]
  show (lazyBody (body ++ (fence ++ post))).map (fun p => p.1) = some body
  rw [lazyBody_boundary hbody]
  rfl

/-- The search resolves a match that starts right at an opening fence. -/
theorem searchFence_at_fence {lang body post : List Char}
    (hlang : ∀ c ∈ lang, isLangChar c = true) (hbody : ∀ c ∈ body, c ≠ '`') :
    searchFence ('`' :: '`' :: '`' :: (lang ++ '\n' :: (body ++ (fence ++ post)))) =
      some body := by
  show (match tryMatchAt ('`' :: '`' :: '`' :: (lang ++ '\n' :: (body ++ (fence ++ post)))) with
    | some g => some g
    | none => searchFence ('`' :: '`' :: (lang ++ '\n' :: (body ++ (fence ++ post))))) = some body
  rw [tryMatchAt_at_fence hlang hbody]

/-- Extraction of the first fenced block from a text decomposed around
its first fence. -/
theorem extract_at_first_fence (pre lang body post : List Char)
    (hpre : ∀ c ∈ pre, c ≠ '`') (hlang : ∀ c ∈ lang, isLangChar c = true)
    (hbody : ∀ c ∈ body, c ≠ '`') :
    extract_code_block
        (String.mk (pre ++ (fence ++ (lang ++ '\n' :: (body ++ (fence ++ post)))))) =
      some (pyStrip (String.mk body)) := by
  rw [extract_mk, searchFence_skip hpre]
  show (searchFence ('`' :: '`' :: '`' :: (lang ++ '\n' :: (body ++ (fence ++ post))))).map
    (fun g => pyStrip (String.mk g)) = some (pyStrip (String.mk body))
  rw [searchFence_at_fence hlang hbody]
  rfl

/-- A successful tag munch means the input was a run of class characters,
then a newline, then the remainder. -/
theorem matchAfterFence_shape : ∀ {s rest : List Char},
    matchAfterFence s = some rest →
    ∃ lang, (∀ c ∈ lang, isLangChar c = true) ∧ s = lang ++ '\n' :: rest := by
  intro s
  induction s with
  | nil => intro rest h; exact absurd h (by simp [matchAfterFence])
  | cons c s ih =>
    intro rest h
    by_cases hc : isLangChar c = true
    · rw [show matchAfterFence (c :: s) =
          (if isLangChar c then matchAfterFence s
           else if c = '\n' then some s else none) from rfl, if_pos hc] at h
      obtain ⟨lang, hl, hs⟩ := ih h
      refine ⟨c :: lang, ?_, by rw [hs, List.cons_append]⟩
      intro d hd
      rcases List.mem_cons.mp hd with h' | h'
      · rw [h']; exact hc
      · exact hl d h'
    · rw [show matchAfterFence (c :: s) =
          (if isLangChar c then matchAfterFence s
           else if c = '\n' then some s else none) from rfl, if_neg hc] at h
      by_cases hn : c = '\n'
      · rw [if_pos hn] at h
        refine ⟨[], by simp, ?_⟩
        rw [List.nil_append, hn]
        exact congrArg (List.cons '\n') (Option.some.inj h)
      · rw [if_neg hn] at h
        cases h

/-- A successful anchored match means the input starts with an opening
fence, a tag run and a newline. -/
theorem tryMatchAt_shape {s g : List Char} (h : tryMatchAt s = some g) :
    ∃ lang rest, (∀ c ∈ lang, isLangChar c = true) ∧
      s = fence ++ (lang ++ '\n' :: rest) := by
  unfold tryMatchAt at h
  by_cases h3 : s.take 3 = fence
  · rw [if_pos h3] at h
    cases hm : matchAfterFence (s.drop 3) with
    | none => rw [hm] at h; cases h
    | some rest' =>
      obtain ⟨lang, hl, hs⟩ := matchAfterFence_shape hm
      refine ⟨lang, rest', hl, ?_⟩
      rw [← h3, ← hs, List.take_append_drop]
  · rw [if_neg h3] at h; cases h

/-- A successful search means the text contains, at some position, an
opening fence with its tag followed by a newline. -/
theorem searchFence_shape : ∀ {s g : List Char}, searchFence s = some g →
    ∃ lang rest, (∀ c ∈ lang, isLangChar c = true) ∧
      (fence ++ (lang ++ '\n' :: rest)) <:+ s := by
  intro s
  induction s with
  | nil =>
    intro g h
    rw [show searchFence [] = none from rfl] at h
    cases h
  | cons c s ih =>
    intro g h
    rw [show searchFence (c :: s) =
        (match tryMatchAt (c :: s) with
         | some g => some g
         | none => searchFence s) from rfl] at h
    cases ht : tryMatchAt (c :: s) with
    | some g' =>
      obtain ⟨lang, rest, hl, hs⟩ := tryMatchAt_shape ht
      refine ⟨lang, rest, hl, ?_⟩
      rw [hs]
    | none =>
      rw [ht] at h
      obtain ⟨lang, rest, hl, hsuf⟩ := ih h
      exact ⟨lang, rest, hl, hsuf.trans (List.suffix_cons c s)⟩

/-! ## Claim theorems -/

/-- C1: for every session name and application state, `save` followed by
`load` returns a record whose `persistent_context`, `messages`,
`nx_version` and `uploaded_files_meta` equal those of the saved state,
with `created_at` equal to the timestamp of that save; and after a second
save under the same name the loaded stamp is the second timestamp — a
last-saved-at value, not preserved across saves. -/
theorem save_then_load_roundtrip :
    (∀ (now name : String) (S : AppState) (fs : FS),
      load_session (save_session now name S fs) name =
        Except.ok (some ⟨now, S.persistent_context, S.messages, S.nx_version,
          S.uploaded_files_meta⟩)) ∧
    (∀ (now1 now2 name : String) (S1 S2 : AppState) (fs : FS),
      load_session (save_session now2 name S2 (save_session now1 name S1 fs)) name =
        Except.ok (some ⟨now2, S2.persistent_context, S2.messages, S2.nx_version,
          S2.uploaded_files_meta⟩)) := by
  constructor
  · intro now name S fs
    simp [load_session, save_session]
  · intro now1 now2 name S1 S2 fs
    simp [load_session, save_session]

/-- Counterexample for C2: the accented letter in the name is outside
the class of the claim, yet the program keeps it — the stored path is
not the name with all characters outside that class removed, and the two
names that differ only in characters outside the class map to different
paths. -/
theorem session_path_unicode_counterexample :
    session_path "café" = "data/café.json" ∧
    session_path "café" ≠
      "data/" ++ String.mk ("café".data.filter specAllowedChar) ++ ".json" ∧
    "café".data.filter specAllowedChar = "caf".data.filter specAllowedChar ∧
    session_path "café" ≠ session_path "caf" := by decide

/-- C2 (amended): for session names made of ASCII characters, the stored
file path is the name with every character outside the allowed class
removed, wrapped into the data directory with the JSON suffix, and two
such names whose allowed-character subsequences agree — names that
differ only in disallowed characters — map to the same path; non-ASCII
alphanumerics are kept by `str.isalnum`, so the unrestricted statement
fails. -/
theorem session_path_sanitizes_ascii :
    (∀ name : String, (∀ c ∈ name.data, c.toNat < 128) →
      session_path name =
        "data/" ++ String.mk (name.data.filter specAllowedChar) ++ ".json") ∧
    (∀ n1 n2 : String, (∀ c ∈ n1.data, c.toNat < 128) →
        (∀ c ∈ n2.data, c.toNat < 128) →
        n1.data.filter specAllowedChar = n2.data.filter specAllowedChar →
        session_path n1 = session_path n2) := by
  have key : ∀ name : String, (∀ c ∈ name.data, c.toNat < 128) →
      session_path name =
        "data/" ++ String.mk (name.data.filter specAllowedChar) ++ ".json" := by
    intro name h
    have hf : name.data.filter keepChar = name.data.filter specAllowedChar :=
      List.filter_congr (fun c hc => keepChar_eq_spec_ascii (h c hc))
    simp only [session_path, hf]
    rfl
  exact ⟨key, fun n1 n2 h1 h2 h => by rw [key n1 h1, key n2 h2, h]⟩

/-- Witness for C2 at concrete ASCII inputs: two names that differ only
in disallowed characters collide on the same file. -/
theorem session_path_sanitizes_ascii_witness :
    session_path "nx*journal!" = session_path "nx?journal" :=
  session_path_sanitizes_ascii.2 "nx*journal!" "nx?journal"
    (by decide) (by decide) (by decide)

/-- C3: at most 3 attempts are ever made; a client failing on its first
two attempts and succeeding on the third yields the success result after
exactly 3 attempts and exactly 2 delays of 1.2 seconds (12 tenths); a
client failing on all 3 attempts yields a raised error naming the last
underlying cause, after a 1.2-second delay following each failed
attempt. -/
theorem call_openai_retry_behavior (client : Nat → Except String String) :
    (call_openai client).attempts ≤ 3 ∧
    (∀ e0 e1 s, client 0 = Except.error e0 → client 1 = Except.error e1 →
      client 2 = Except.ok s →
      call_openai client = ⟨Except.ok s, 3, [12, 12]⟩) ∧
    (∀ e0 e1 e2, client 0 = Except.error e0 → client 1 = Except.error e1 →
      client 2 = Except.error e2 →
      call_openai client = ⟨Except.error ("Contact OpenAI: " ++ e2), 3,
        [12, 12, 12]⟩) := by
  refine ⟨?_, ?_, ?_⟩
  · cases h0 : client 0 <;> cases h1 : client 1 <;> cases h2 : client 2 <;>
      simp [call_openai, call_openai_loop, h0, h1, h2]
  · intro e0 e1 s h0 h1 h2
    simp [call_openai, call_openai_loop, h0, h1, h2, sleepTenths]
  · intro e0 e1 e2 h0 h1 h2
    simp [call_openai, call_openai_loop, h0, h1, h2, sleepTenths]

/-- Witness for C3: the concrete fail-fail-succeed client returns the
success result with 3 attempts and 2 delays. -/
theorem call_openai_retry_behavior_witness :
    call_openai flakyClient = ⟨Except.ok "done", 3, [12, 12]⟩ :=
  (call_openai_retry_behavior flakyClient).2.1 "boom0" "boom1" "done" rfl rfl rfl

set_option maxRecDepth 200000 in
/-- C4: extraction returns the stripped content of the first fenced
block — for any backtick-free prefix, class-only language tag and
backtick-free body, whatever follows the closing fence (including further
blocks); a text with no fence (no backtick at all) yields no result; on
the concrete one-block example the stripped body is returned; with two
blocks only the first is returned. -/
theorem extract_first_fenced_block :
    (∀ pre lang body post : List Char,
      (∀ c ∈ pre, c ≠ '`') → (∀ c ∈ lang, isLangChar c = true) →
      (∀ c ∈ body, c ≠ '`') →
      extract_code_block
          (String.mk (pre ++ (fence ++ (lang ++ '\n' :: (body ++ (fence ++ post)))))) =
        some (pyStrip (String.mk body))) ∧
    (∀ text : String, (∀ c ∈ text.data, c ≠ '`') → extract_code_block text = none) ∧
    extract_code_block "Here:\n```python\nprint(1)\n```\nthanks" = some "print(1)" ∧
    extract_code_block "```a\nfirst\n```\nmid\n```b\nsecond\n```" = some "first" := by
  refine ⟨extract_at_first_fence, ?_, by decide, by decide⟩
  intro text h
  unfold extract_code_block
  cases hs : searchFence text.data with
  | none => rfl
  | some g =>
    obtain ⟨lang, rest, hl, hsuf⟩ := searchFence_shape hs
    exact absurd (hsuf.subset (by simp [fence])) (h '`' · rfl)

set_option maxRecDepth 200000 in
/-- Witness for C4: a concrete decomposition around the first fence,
extracted and stripped. -/
theorem extract_first_fenced_block_witness :
    extract_code_block (String.mk ("Intro:\n".data ++ (fence ++ ("py".data ++ '\n' ::
      ("x = 1\n".data ++ (fence ++ "\ntail".data)))))) = some "x = 1" :=
  (extract_first_fenced_block.1 "Intro:\n".data "py".data "x = 1\n".data "\ntail".data
    (by decide) (by decide) (by decide)).trans (by decide)

set_option maxRecDepth 200000 in
/-- C5: the prompt is, in fixed order, the base block naming the stripped
NX version verbatim in the compatibility line, then — exactly when the
stripped persistent context is nonempty — the permanent-instructions
section carrying that context verbatim, then the fixed 4-point
response-format directive at the end; concretely, the prompt built from
an empty context never mentions the permanent-instructions heading, while
the prompt built from a nonempty context contains it with the context
text and contains the literal version string in the compatibility
line. -/
theorem build_system_prompt_spec :
    (∀ pc nx : String, pyStrip pc = "" →
      build_system_prompt pc nx = promptBase (pyStrip nx) ++ responseFormat) ∧
    (∀ pc nx : String, pyStrip pc ≠ "" →
      build_system_prompt pc nx =
        promptBase (pyStrip nx) ++
          ("PERMANENT INSTRUCTIONS TO FOLLOW:\n" ++ pyStrip pc ++ "\n\n") ++
          responseFormat) ∧
    (∀ nx_ver : String, promptBase nx_ver =
      ("You are an expert assistant in NXOpen (Python) for Siemens NX.\n" ++
       "Always use and respect the official NXOpen Python documentation when reasoning:\n" ++
       doc_url ++ "\n\n" ++
       "Act as a reviewer and improver of journals/code: clean, documented, robust, and ready for integration.\n" ++
       "Compatibility target: **") ++ nx_ver ++
      ("**. Avoid using APIs or namespaces incompatible with that version.\n\n" ++
       "remove any user movements inside of the code that got recorded in the journal.\n")) ∧
    occursIn "PERMANENT INSTRUCTIONS".data (build_system_prompt "" "NX 2212").data = false ∧
    occursIn "PERMANENT INSTRUCTIONS TO FOLLOW:\nkeep names in English".data
      (build_system_prompt "keep names in English" "NX 2212").data = true ∧
    occursIn "Compatibility target: **NX 2212**".data
      (build_system_prompt "keep names in English" "NX 2212").data = true := by
  refine ⟨?_, ?_, ?_, by decide, by decide, by decide⟩
  · intro pc nx h
    simp [build_system_prompt, h]
  · intro pc nx h
    simp [build_system_prompt, h, String.append_assoc]
  · intro nx_ver
    simp [promptBase, String.append_assoc]

set_option maxRecDepth 200000 in
/-- Witness for C5: the nonempty-context case at the concrete inputs of
the claim. -/
theorem build_system_prompt_spec_witness :
    build_system_prompt "keep names in English" "NX 2212" =
      promptBase (pyStrip "NX 2212") ++
        ("PERMANENT INSTRUCTIONS TO FOLLOW:\n" ++ pyStrip "keep names in English" ++ "\n\n") ++
        responseFormat :=
  build_system_prompt_spec.2.1 "keep names in English" "NX 2212" (by decide)

/-- C6: the message list of a processing turn is exactly one fresh system
message from the prompt builder, then the prior history filtered to user
and assistant roles, then the user message with the code payload, then
the fixed trailing user instruction; the replayed history slice contains
no system message, and the whole list contains exactly one. -/
theorem clean_improve_msgs_spec (pc nx : String) (history : List Msg)
    (code_msg : String) :
    clean_improve_msgs pc nx history code_msg =
      Msg.mk "system" (build_system_prompt pc nx) ::
      (history.filter (fun m => m.role = "user" || m.role = "assistant") ++
        [Msg.mk "user" code_msg, Msg.mk "user" trailingInstruction]) ∧
    (history.filter (fun m => m.role = "user" || m.role = "assistant")).countP
      (fun m => m.role = "system") = 0 ∧
    (clean_improve_msgs pc nx history code_msg).countP
      (fun m => m.role = "system") = 1 := by
  have heq : clean_improve_msgs pc nx history code_msg =
      Msg.mk "system" (build_system_prompt pc nx) ::
      (history.filter (fun m => m.role = "user" || m.role = "assistant") ++
        [Msg.mk "user" code_msg, Msg.mk "user" trailingInstruction]) := by
    simp [clean_improve_msgs, List.append_assoc]
  have h0 : (history.filter (fun m => m.role = "user" || m.role = "assistant")).countP
      (fun m => m.role = "system") = 0 := by
    rw [List.countP_eq_zero]
    intro m hm
    have h2 := List.of_mem_filter hm
    simp only [Bool.or_eq_true, decide_eq_true_eq] at h2 ⊢
    rcases h2 with h2 | h2 <;> simp [h2]
  refine ⟨heq, h0, ?_⟩
  rw [heq]
  simp [List.countP_cons, List.countP_append, h0]

/-- C7: loading a session whose sanitized path is absent from the store
returns the not-found result (`None`) and raises nothing. -/
theorem load_session_missing (fs : FS) (name : String)
    (h : fs (session_path name) = none) :
    load_session fs name = Except.ok none := by
  simp [load_session, h]

/-- Witness for C7: loading the name does-not-exist from an empty
store. -/
theorem load_session_missing_witness :
    load_session emptyFS "does-not-exist" = Except.ok none :=
  load_session_missing emptyFS "does-not-exist" rfl

/-- C8: when the Load button attempts a load that fails — not found, or a
parse error — the handler leaves the application state exactly as it was:
the not-found branch shows an error with the state untouched, and a parse
error propagates (before any field assignment) with the state
untouched. -/
theorem load_failure_leaves_state_unchanged (fs : FS) (sel : String)
    (st : AppState) (hsel : ¬(sel = "" ∨ sel = "(select)")) :
    (load_session fs sel = Except.ok none →
      load_button_handler fs sel st = LoadOutcome.failure st) ∧
    (∀ e, load_session fs sel = Except.error e →
      load_button_handler fs sel st = LoadOutcome.raised e st) := by
  constructor
  · intro h
    simp [load_button_handler, hsel, h]
  · intro e h
    simp [load_button_handler, hsel, h]

/-- Witness for C8: loading the corrupt session propagates the parse
error and leaves the concrete state untouched. -/
theorem load_failure_leaves_state_unchanged_witness :
    load_button_handler corruptFS "bad" sampleState =
      LoadOutcome.raised "Expecting value: line 1 column 1 (char 0)" sampleState :=
  (load_failure_leaves_state_unchanged corruptFS "bad" sampleState
    (by decide)).2 _ (by decide)

set_option maxRecDepth 200000 in
/-- Counterexample for C9: extraction finds a fenced block — the empty
one — yet the program offers no download, because the source guard
treats the empty stripped block as falsy. -/
theorem download_offer_empty_block_counterexample :
    extract_code_block "```\n```" = some "" ∧
    download_offer (some "part.cs") "```\n```" = none := by decide

/-- C9 (amended): when extraction finds a block whose stripped content
is nonempty, a download is offered whose content is the extracted code
and whose filename is the fixed generic name — the same for every
processed file, Python or not, because both branches of the extension
check assign the same constant; a block that strips to the empty string
is falsy in the source guard, and no download is offered. -/
theorem download_fixed_name (selected : Option String) (result extracted : String) :
    (extract_code_block result = some extracted → extracted ≠ "" →
      download_offer selected result = some ("improved_code.py", extracted)) ∧
    (extract_code_block result = some "" → download_offer selected result = none) ∧
    download_name selected = "improved_code.py" := by
  have hn : download_name selected = "improved_code.py" := by
    cases selected <;> simp [download_name]
  refine ⟨?_, ?_, hn⟩
  · intro h hne
    simp [download_offer, h, hne, hn]
  · intro h
    simp [download_offer, h]

set_option maxRecDepth 200000 in
/-- Witness for C9: a non-Python upload still downloads under the generic
name, with the nonempty extracted block as content. -/
theorem download_fixed_name_witness :
    download_offer (some "part.cs") "done\n```python\nx = 1\n```" =
      some ("improved_code.py", "x = 1") :=
  (download_fixed_name (some "part.cs") "done\n```python\nx = 1\n```" "x = 1").1
    (by decide) (by decide)

set_option maxRecDepth 200000 in
/-- C10: if no position of the text carries an opening fence whose
optional tag is immediately followed by a newline, extraction returns the
none-found result — in particular on the concrete single-line fenced
span of the claim. -/
theorem fenced_block_requires_newline :
    (∀ text : String,
      (∀ lang rest : List Char, (∀ c ∈ lang, isLangChar c = true) →
        ¬((fence ++ (lang ++ '\n' :: rest)) <:+ text.data)) →
      extract_code_block text = none) ∧
    extract_code_block "one-line ```x = 1``` here" = none := by
  constructor
  · intro text h
    unfold extract_code_block
    cases hs : searchFence text.data with
    | none => rfl
    | some g =>
      obtain ⟨lang, rest, hl, hsuf⟩ := searchFence_shape hs
      exact absurd hsuf (h lang rest hl)
  · decide

set_option maxRecDepth 200000 in
/-- Witness for C10: a newline-free text can carry no opening fence
followed by a newline, so extraction finds nothing. -/
theorem fenced_block_requires_newline_witness :
    extract_code_block "inline ```js 1+1``` end" = none :=
  fenced_block_requires_newline.1 "inline ```js 1+1``` end" (fun lang rest _ hsuf =>
    absurd (hsuf.subset (show ('\n' : Char) ∈ fence ++ (lang ++ '\n' :: rest) by simp))
      (by decide : ('\n' : Char) ∉ "inline ```js 1+1``` end".data))

end NXGenie
